import Mathlib

/-!
Verification of the just-my-kids WhatsApp bridge (whatsapp-bridge/main.go).

Shallow embedding conventions:
* `time.Time` values are modelled as `Int` Unix seconds (`t1.Before(t2)` is `t1 < t2`);
  the `UnixNano` value used for staged-file names is a separate `Int`.
* The SQLite `messages` / `chats` tables are lists of rows; `INSERT OR REPLACE`
  on the primary key is "remove any row with that key, then append the new row".
* `SELECT ... ORDER BY c DESC` is modelled by sorting the row list with the
  corresponding relation; `LIMIT n` is `List.take n`.
* Fallible collaborators (download, file read, image decode, upload, send) are
  supplied as `Except`-valued fields of an environment record, and the embedded
  functions additionally report which effects they performed.
-/

set_option maxRecDepth 4000
set_option linter.unusedVariables false

namespace JustMyKids

instance {ε α : Type} [DecidableEq ε] [DecidableEq α] : DecidableEq (Except ε α) := fun a b =>
  match a, b with
  | .error e1, .error e2 =>
    if h : e1 = e2 then .isTrue (by rw [h]) else .isFalse (by simpa using h)
  | .ok v1, .ok v2 =>
    if h : v1 = v2 then .isTrue (by rw [h]) else .isFalse (by simpa using h)
  | .error _, .ok _ => .isFalse (by simp)
  | .ok _, .error _ => .isFalse (by simp)

/-- Row of the `chats` table (jid TEXT PRIMARY KEY, name, last_message_time). -/
structure ChatRow where
  jid : String
  name : String
  lastMessageTime : Int
deriving DecidableEq, Repr

/-- Row of the `messages` table, PRIMARY KEY (id, chat_jid). -/
structure MessageRow where
  id : String
  chatJID : String
  sender : String
  content : String
  timestamp : Int
  isFromMe : Bool
  imageURL : String
  thumbnailURL : String
  mediaType : String
deriving DecidableEq, Repr

/-- The message archive: the two tables created by NewMessageStore. -/
structure DB where
  chats : List ChatRow
  messages : List MessageRow
deriving DecidableEq, Repr

/-- The freshly created archive (CREATE TABLE IF NOT EXISTS, both tables empty). -/
def emptyDB : DB := ⟨[], []⟩

/-- StoreChat (main.go:99-105): INSERT OR REPLACE INTO chats keyed by jid.
The supplied lastMessageTime blindly replaces any previously stored value. -/
def StoreChat (db : DB) (jid name : String) (lastMessageTime : Int) : DB :=
  { db with chats := db.chats.filter (fun c => c.jid ≠ jid) ++ [⟨jid, name, lastMessageTime⟩] }

/-- StoreMessage (main.go:108-119): skip entirely when both content and imageURL
are empty, otherwise INSERT OR REPLACE keyed by (id, chat_jid). -/
def StoreMessage (db : DB) (id chatJID sender content : String) (timestamp : Int)
    (isFromMe : Bool) (imageURL thumbnailURL mediaType : String) : DB :=
  if content = "" ∧ imageURL = "" then db
  else
    { db with
      messages := db.messages.filter (fun m => ¬(m.id = id ∧ m.chatJID = chatJID)) ++
        [⟨id, chatJID, sender, content, timestamp, isFromMe, imageURL, thumbnailURL, mediaType⟩] }

/-- Scan order of `SELECT ... FROM messages ... ORDER BY timestamp DESC`. -/
def msgRecency (a b : MessageRow) : Prop := b.timestamp ≤ a.timestamp

instance : DecidableRel msgRecency := fun a b =>
  inferInstanceAs (Decidable (b.timestamp ≤ a.timestamp))

instance : IsTotal MessageRow msgRecency := ⟨fun a b => le_total b.timestamp a.timestamp⟩

instance : IsTrans MessageRow msgRecency := ⟨fun _ _ _ h1 h2 => le_trans h2 h1⟩

/-- Scan order of `SELECT ... FROM chats ORDER BY last_message_time DESC`. -/
def chatRecency (a b : ChatRow) : Prop := b.lastMessageTime ≤ a.lastMessageTime

instance : DecidableRel chatRecency := fun a b =>
  inferInstanceAs (Decidable (b.lastMessageTime ≤ a.lastMessageTime))

instance : IsTotal ChatRow chatRecency := ⟨fun a b => le_total b.lastMessageTime a.lastMessageTime⟩

instance : IsTrans ChatRow chatRecency := ⟨fun _ _ _ h1 h2 => le_trans h2 h1⟩

/-- The full result set of the GetMessages query, before LIMIT is applied. -/
def messagesOfChat (db : DB) (chatJID : String) : List MessageRow :=
  List.insertionSort msgRecency (db.messages.filter (fun m => m.chatJID = chatJID))

/-- GetMessages (main.go:122-145): rows of the chat ordered by timestamp DESC,
LIMIT `limit`, scanned into a slice in query order. -/
def GetMessages (db : DB) (chatJID : String) (limit : Nat) : List MessageRow :=
  (messagesOfChat db chatJID).take limit

/-- GetChats (main.go:148-167): all chat rows ordered by last_message_time DESC.
Go collects the scanned (jid, last_message_time) pairs into a map keyed by jid;
we keep the pairs in scan order, which is the ORDER BY order. -/
def GetChats (db : DB) : List (String × Int) :=
  (List.insertionSort chatRecency db.chats).map (fun c => (c.jid, c.lastMessageTime))

/-- The parts of a waProto.Message the bridge inspects: an image attachment
with its caption and embedded JPEG thumbnail. -/
structure ImageMsg where
  caption : String
  jpegThumbnail : String
deriving DecidableEq, Repr

/-- The parts of a waProto.Message the bridge inspects. -/
structure WaMessage where
  conversation : String
  extendedText : Option String
  imageMessage : Option ImageMsg
deriving DecidableEq, Repr

/-- extractTextContent (main.go:170-188): prefer Conversation; else the
ExtendedTextMessage text when that submessage is present (even if its text is
empty); else the image caption; else empty. -/
def extractTextContent : Option WaMessage → String
  | none => ""
  | some m =>
    if m.conversation ≠ "" then m.conversation
    else
      match m.extendedText with
      | some t => t
      | none =>
        match m.imageMessage with
        | some im => im.caption
        | none => ""

/-- Environment of one extractMediaContent call: the acquisition clock and the
outcomes of the fallible collaborators it may invoke. -/
structure AcquireEnv where
  now : Int
  download : Except String (List Nat)
  mkdirErr : Option String
  writeErr : Option String
  stagedNano : Int
deriving Repr

/-- Result of extractMediaContent: the (imageURL, thumbnailURL, mediaType)
triple or an error, plus whether client.Download was invoked. -/
structure MediaOutcome where
  result : Except String (String × String × String)
  downloadInvoked : Bool
deriving DecidableEq, Repr

/-- extractMediaContent (main.go:191-231). Only image messages are handled.
When isHistorical is false and the message timestamp is before now minus five
minutes (300 s), the download is skipped and empty values are returned.
Otherwise the image is downloaded and written to
store/media/img_(UnixNano).jpg. The chatJID argument is unused, as in Go. -/
def extractMediaContent (env : AcquireEnv) (msg : Option WaMessage) (chatJID : String)
    (isHistorical : Bool) (messageTimestamp : Int) : MediaOutcome :=
  match msg with
  | none => ⟨.ok ("", "", ""), false⟩
  | some m =>
    match m.imageMessage with
    | none => ⟨.ok ("", "", ""), false⟩
    | some im =>
      if ¬isHistorical ∧ messageTimestamp < env.now - 300 then ⟨.ok ("", "", ""), false⟩
      else
        match env.download with
        | .error e => ⟨.error ("failed to download image: " ++ e), true⟩
        | .ok _ =>
          match env.mkdirErr with
          | some e => ⟨.error ("failed to create media directory: " ++ e), true⟩
          | none =>
            match env.writeErr with
            | some e => ⟨.error ("failed to save image: " ++ e), true⟩
            | none =>
              ⟨.ok ("store/media/img_" ++ toString env.stagedNano ++ ".jpg",
                    im.jpegThumbnail, "image"), true⟩

/-- The media-acquisition call made inside handleHistorySync (main.go:824): the
history handler passes the literal `false` for the isHistorical flag. -/
def historySyncMediaCall (env : AcquireEnv) (msg : Option WaMessage) (chatJID : String)
    (timestamp : Int) : MediaOutcome :=
  extractMediaContent env msg chatJID false timestamp

/-- Per-person destination entry of config.json. -/
structure DestinationConfig where
  name : String
  group : String
deriving DecidableEq, Repr

/-- The application configuration (main.go:467-483); destinations is a map
modelled as an association list. -/
structure Config where
  inputGroups : List String
  destinations : List (String × DestinationConfig)
deriving DecidableEq, Repr

/-- isKindergartenGroup (main.go:487-494): linear scan of input_groups. -/
def isKindergartenGroup (cfg : Config) (chatJID : String) : Bool :=
  cfg.inputGroups.any (fun groupJID => chatJID = groupJID)

/-- The fields of an events.Message the bridge reads. -/
structure IncomingMsg where
  id : String
  chatJID : String
  chatUser : String
  sender : String
  isFromMe : Bool
  isGroup : Bool
  timestamp : Int
  message : Option WaMessage
deriving DecidableEq, Repr

/-- Environment of one handleMessage call: the contact-store lookup result for
the chat (some name on success) and the media-acquisition environment. -/
structure MsgEnv where
  contactFullName : Option String
  media : AcquireEnv
deriving Repr

/-- handleMessage (main.go:694-760). Group messages from chats outside
input_groups are skipped before anything is written. A media error is logged
and processing continues with empty media values. Messages with neither text
nor media are skipped. Otherwise the chat row and the message row are
upserted. -/
def handleMessage (cfg : Config) (env : MsgEnv) (db : DB) (m : IncomingMsg) : DB :=
  if m.isGroup ∧ ¬isKindergartenGroup cfg m.chatJID then db
  else
    let content := extractTextContent m.message
    let mediaRes := extractMediaContent env.media m.message m.chatJID false m.timestamp
    let media := match mediaRes.result with
      | .ok v => v
      | .error _ => ("", "", "")
    if content = "" ∧ media.1 = "" then db
    else
      let name := match env.contactFullName with
        | some n => if n ≠ "" then n else m.chatUser
        | none => m.chatUser
      let db1 := StoreChat db m.chatJID name m.timestamp
      StoreMessage db1 m.id m.chatJID m.sender content m.timestamp m.isFromMe
        media.1 media.2.1 media.2.2

/-- A types.JID value as built by sendWhatsAppMessage. -/
structure JID where
  user : String
  server : String
deriving DecidableEq, Repr

/-- The waProto.Message payload handed to client.SendMessage. Upload handles
are abstracted to the URL string of the upload result. -/
inductive OutPayload where
  | conversation (text : String)
  | imageMessage (url caption : String) (width height : Nat)
  | videoMessage (url caption mimetype : String)
deriving DecidableEq, Repr

/-- Recipient construction (main.go:306-319): a destination ending in the
group marker routes to server g.us with the marker trimmed, anything else to
s.whatsapp.net. -/
def recipientOf (phone : String) : JID :=
  if phone.endsWith "@g.us" then ⟨phone.dropRight 5, "g.us"⟩
  else ⟨phone, "s.whatsapp.net"⟩

/-- Environment of one sendWhatsAppMessage call: connection state and the
outcomes of the fallible collaborators. decodeImage stands for
verifyAndConvertImage (jpeg bytes, width, height); upload returns the URL of
the uploaded media; sendResult returns the sent-message ID. -/
structure SendEnv where
  isConnected : Bool
  readFile : String → Except String (List Nat)
  decodeImage : List Nat → Except String (List Nat × Nat × Nat)
  upload : List Nat → Except String String
  detectContentType : List Nat → String
  sendResult : JID → OutPayload → Except String String

/-- Result of sendWhatsAppMessage: the (success, detail) pair it returns plus
the effects it performed along the way. -/
structure SendOutcome where
  success : Bool
  detail : String
  readsAttempted : List String
  uploadsAttempted : Nat
  sendAttemptedWith : Option OutPayload
deriving DecidableEq, Repr

/-- The trailing client.SendMessage call of sendWhatsAppMessage
(main.go:392-399). -/
def finishSend (env : SendEnv) (recipient : JID) (phone : String) (payload : OutPayload)
    (reads : List String) (uploads : Nat) : SendOutcome :=
  match env.sendResult recipient payload with
  | .error e => ⟨false, "Error sending message: " ++ e, reads, uploads, some payload⟩
  | .ok msgId =>
    ⟨true, "Message sent to " ++ phone ++ " with ID: " ++ msgId, reads, uploads, some payload⟩

/-- sendWhatsAppMessage (main.go:299-400). Not connected fails immediately.
With a non-empty media URL and type, the file is read; kind image is decoded,
re-encoded and uploaded, kind video is uploaded raw, and any other kind falls
back to a plain text message. With no media URL or no media type the text
message is sent directly. -/
def sendWhatsAppMessage (env : SendEnv) (phone message mediaURL mediaType caption : String) :
    SendOutcome :=
  if env.isConnected = false then ⟨false, "Not connected to WhatsApp", [], 0, none⟩
  else
    let recipientJID := recipientOf phone
    if mediaURL ≠ "" ∧ mediaType ≠ "" then
      match env.readFile mediaURL with
      | .error e => ⟨false, "Error reading media file: " ++ e, [mediaURL], 0, none⟩
      | .ok mediaData =>
        if mediaType = "image" then
          match env.decodeImage mediaData with
          | .error e => ⟨false, "Error processing image: " ++ e, [mediaURL], 0, none⟩
          | .ok (jpegData, width, height) =>
            match env.upload jpegData with
            | .error e => ⟨false, "Error uploading image: " ++ e, [mediaURL], 1, none⟩
            | .ok url =>
              finishSend env recipientJID phone (.imageMessage url caption width height)
                [mediaURL] 1
        else if mediaType = "video" then
          match env.upload mediaData with
          | .error e => ⟨false, "Error uploading video: " ++ e, [mediaURL], 1, none⟩
          | .ok url =>
            finishSend env recipientJID phone
              (.videoMessage url caption (env.detectContentType mediaData)) [mediaURL] 1
        else finishSend env recipientJID phone (.conversation message) [mediaURL] 0
    else finishSend env recipientJID phone (.conversation message) [] 0

/-- Request body of the /api/send endpoint. -/
structure SendMessageRequest where
  phone : String
  message : String
  mediaURL : String
  mediaType : String
  caption : String
deriving DecidableEq, Repr

/-- Response body of the /api/send endpoint. -/
structure SendMessageResponse where
  success : Bool
  message : String
deriving DecidableEq, Repr

/-- What the /api/send handler writes back: the HTTP status code, the JSON
response body when one is encoded, the plain-text body of an early http.Error
rejection, and whether sendWhatsAppMessage was invoked. -/
structure HandlerOutcome where
  statusCode : Nat
  response : Option SendMessageResponse
  errorText : Option String
  gatewayInvoked : Bool
deriving DecidableEq, Repr

/-- The /api/send handler of startRESTServer (main.go:405-453). A body that
fails JSON decoding is modelled as `none`. Non-POST is rejected 405, a parse
failure 400, an empty phone or empty message-and-mediaURL 400, all without
invoking the gateway; otherwise the gateway result is returned as JSON with
status 500 on failure and the default 200 on success. -/
def handleSendRequest (env : SendEnv) (method : String) (body : Option SendMessageRequest) :
    HandlerOutcome :=
  if method ≠ "POST" then ⟨405, none, some "Method not allowed", false⟩
  else
    match body with
    | none => ⟨400, none, some "Invalid request format", false⟩
    | some req =>
      if req.phone = "" ∨ (req.message = "" ∧ req.mediaURL = "") then
        ⟨400, none, some "Phone and either message or media URL are required", false⟩
      else
        let o := sendWhatsAppMessage env req.phone req.message req.mediaURL req.mediaType
          req.caption
        ⟨if o.success then 200 else 500, some ⟨o.success, o.detail⟩, none, true⟩

/-- Modelled from the spec: the Identity Match Engine lives in
face_filter_service.py, which is not under src/; only its configuration and
callers are. Following the spec, a reference photo carries one or more
reference embeddings, and a photo matches the staged image when at least one
detected face is at distance at most confidence_threshold from at least one of
the photo's reference embeddings. -/
def photoHasMatch {α : Type} (dist : α → α → ℚ) (threshold : ℚ)
    (faces : List α) (photo : List α) : Bool :=
  faces.any (fun f => photo.any (fun r => dist f r ≤ threshold))

/-- Modelled from the spec: the number of reference photos having at least one
detected face within threshold — each photo counted once however many faces
match it. -/
def matchingPhotoCount {α : Type} (dist : α → α → ℚ) (threshold : ℚ)
    (faces : List α) (photos : List (List α)) : Nat :=
  (photos.filter (photoHasMatch dist threshold faces)).length

/-- Modelled from the spec: an identity is declared matched for a staged image
iff the matching-photo count reaches the min_matching_faces quorum. -/
def identityMatched {α : Type} (minMatchingFaces : Nat) (dist : α → α → ℚ) (threshold : ℚ)
    (faces : List α) (photos : List (List α)) : Bool :=
  minMatchingFaces ≤ matchingPhotoCount dist threshold faces photos

/-! Theorems -/

lemma photoHasMatch_iff {α : Type} (dist : α → α → ℚ) (t : ℚ) (faces p : List α) :
    photoHasMatch dist t faces p = true ↔ ∃ f ∈ faces, ∃ r ∈ p, dist f r ≤ t := by
  simp [photoHasMatch]

/-- C1: the Identity Match Engine declares an identity matched iff the number
of its reference photos having at least one detected face at distance at most
confidence_threshold (each photo counted at most once) is at least
min_matching_faces; with min_matching_faces 2 and three reference photos, a
single face at distances 3/10, 9/20, 7/10 from them (threshold 1/2) matches,
while distances 9/20, 7/10, 4/5 do not. -/
theorem quorum_match_spec :
    (∀ (α : Type) (dist : α → α → ℚ) (threshold : ℚ) (faces : List α)
        (photos : List (List α)) (minMatchingFaces : Nat),
      identityMatched minMatchingFaces dist threshold faces photos = true ↔
        minMatchingFaces ≤
          photos.countP (fun p => decide (∃ f ∈ faces, ∃ r ∈ p, dist f r ≤ threshold))) ∧
    identityMatched 2 (fun a b : ℚ => b - a) (1/2) [0]
      [[3/10], [9/20], [7/10]] = true ∧
    identityMatched 2 (fun a b : ℚ => b - a) (1/2) [0]
      [[9/20], [7/10], [4/5]] = false := by
  refine ⟨?_, ?_, ?_⟩
  · intro α dist threshold faces photos minM
    have hfc : photos.filter (photoHasMatch dist threshold faces) =
        photos.filter (fun p => decide (∃ f ∈ faces, ∃ r ∈ p, dist f r ≤ threshold)) := by
      refine List.filter_congr (fun p _ => ?_)
      rw [Bool.eq_iff_iff, photoHasMatch_iff]
      simp
    simp [identityMatched, matchingPhotoCount, List.countP_eq_length_filter, hfc]
  · have p1 : photoHasMatch (fun a b : ℚ => b - a) (2⁻¹) [0] ([3/10] : List ℚ) = true := by
      simp [photoHasMatch]; norm_num
    have p2 : photoHasMatch (fun a b : ℚ => b - a) (2⁻¹) [0] ([9/20] : List ℚ) = true := by
      simp [photoHasMatch]; norm_num
    have p3 : photoHasMatch (fun a b : ℚ => b - a) (2⁻¹) [0] ([7/10] : List ℚ) = false := by
      simp [photoHasMatch]; norm_num
    simp [identityMatched, matchingPhotoCount, List.filter_cons, p1, p2, p3]
  · have p2 : photoHasMatch (fun a b : ℚ => b - a) (2⁻¹) [0] ([9/20] : List ℚ) = true := by
      simp [photoHasMatch]; norm_num
    have p3 : photoHasMatch (fun a b : ℚ => b - a) (2⁻¹) [0] ([7/10] : List ℚ) = false := by
      simp [photoHasMatch]; norm_num
    have p4 : photoHasMatch (fun a b : ℚ => b - a) (2⁻¹) [0] ([4/5] : List ℚ) = false := by
      simp [photoHasMatch]; norm_num
    simp [identityMatched, matchingPhotoCount, List.filter_cons, p2, p3, p4]

theorem quorum_match_spec_witness :
    identityMatched 2 (fun a b : ℚ => b - a) (1/2) [0]
      [[3/10], [9/20], [7/10]] = true :=
  quorum_match_spec.2.1

/-- A disconnected collaborator environment. -/
def envDisconnected : SendEnv :=
  ⟨false, fun _ => .error "io", fun _ => .error "decode", fun _ => .error "upload",
   fun _ => "application/octet-stream", fun _ _ => .error "send"⟩

/-- C10: while the client is not connected, the gateway returns failure with
detail "Not connected to WhatsApp" immediately: no file read, no upload, no
send attempt. -/
theorem send_not_connected (env : SendEnv) (phone message mediaURL mediaType caption : String)
    (h : env.isConnected = false) :
    sendWhatsAppMessage env phone message mediaURL mediaType caption =
      ⟨false, "Not connected to WhatsApp", [], 0, none⟩ := by
  simp [sendWhatsAppMessage, h]

theorem send_not_connected_witness :
    sendWhatsAppMessage envDisconnected "1234" "hi" "/tmp/a.jpg" "image" "" =
      ⟨false, "Not connected to WhatsApp", [], 0, none⟩ :=
  send_not_connected envDisconnected "1234" "hi" "/tmp/a.jpg" "image" "" rfl

/-- A connected environment whose send call always succeeds with ID 3EB0. -/
def envConnectedOk : SendEnv :=
  ⟨true, fun _ => .ok [1, 2], fun _ => .error "decode", fun _ => .error "upload",
   fun _ => "application/octet-stream", fun _ _ => .ok "3EB0"⟩

/-- C8: with a non-empty media path, a media kind that is neither image nor
video, and non-empty text, the gateway degrades to a plain text send of the
text content and reports success when the underlying send succeeds. -/
theorem send_fallback_plain_text (env : SendEnv)
    (phone message mediaURL mediaType caption : String) (data : List Nat) (msgId : String)
    (hconn : env.isConnected = true) (hmedia : mediaURL ≠ "")
    (hni : mediaType ≠ "image") (hnv : mediaType ≠ "video") (hmsg : message ≠ "")
    (hread : env.readFile mediaURL = .ok data)
    (hsend : env.sendResult (recipientOf phone) (.conversation message) = .ok msgId) :
    sendWhatsAppMessage env phone message mediaURL mediaType caption =
      ⟨true, "Message sent to " ++ phone ++ " with ID: " ++ msgId,
        if mediaType = "" then [] else [mediaURL], 0, some (.conversation message)⟩ := by
  by_cases ht : mediaType = ""
  · simp [sendWhatsAppMessage, hconn, ht, finishSend, hsend]
  · simp [sendWhatsAppMessage, hconn, hmedia, ht, hread, hni, hnv, finishSend, hsend]

theorem send_fallback_plain_text_witness :
    sendWhatsAppMessage envConnectedOk "1234" "hi" "/tmp/a.bin" "audio" "" =
      ⟨true, "Message sent to 1234 with ID: 3EB0",
        if "audio" = "" then [] else ["/tmp/a.bin"], 0, some (.conversation "hi")⟩ :=
  send_fallback_plain_text envConnectedOk "1234" "hi" "/tmp/a.bin" "audio" ""
    [1, 2] "3EB0" rfl (by decide) (by decide) (by decide) (by decide) rfl rfl

/-- C9: a POST body that fails to parse, or one with an empty phone or with
message and media URL both empty, is rejected 400 without invoking the
gateway; otherwise the gateway result is always returned as a JSON body with
the success flag and detail string, status 500 on failure and 200 on success;
every request receives a response with one of the four status codes. -/
theorem rest_send_spec (env : SendEnv) (req : SendMessageRequest) :
    handleSendRequest env "POST" none = ⟨400, none, some "Invalid request format", false⟩ ∧
    (req.phone = "" ∨ (req.message = "" ∧ req.mediaURL = "") →
      handleSendRequest env "POST" (some req) =
        ⟨400, none, some "Phone and either message or media URL are required", false⟩) ∧
    (¬(req.phone = "" ∨ (req.message = "" ∧ req.mediaURL = "")) →
      ∀ o : SendOutcome,
        sendWhatsAppMessage env req.phone req.message req.mediaURL req.mediaType req.caption
          = o →
        handleSendRequest env "POST" (some req) =
          ⟨if o.success then 200 else 500, some ⟨o.success, o.detail⟩, none, true⟩) ∧
    (∀ (method : String) (body : Option SendMessageRequest),
      ((handleSendRequest env method body).statusCode = 200 ∨
        (handleSendRequest env method body).statusCode = 400 ∨
        (handleSendRequest env method body).statusCode = 405 ∨
        (handleSendRequest env method body).statusCode = 500) ∧
      ((handleSendRequest env method body).response.isSome ∨
        (handleSendRequest env method body).errorText.isSome)) := by
  refine ⟨rfl, ?_, ?_, ?_⟩
  · intro h
    simp [handleSendRequest, h]
  · intro h o ho
    simp [handleSendRequest, h, ho]
  · intro method body
    by_cases hm : method = "POST"
    · subst hm
      cases body with
      | none => exact ⟨Or.inr (Or.inl rfl), Or.inr rfl⟩
      | some req' =>
        by_cases hv : req'.phone = "" ∨ (req'.message = "" ∧ req'.mediaURL = "")
        · simp [handleSendRequest, hv]
        · simp only [handleSendRequest, hv]
          cases hs : (sendWhatsAppMessage env req'.phone req'.message req'.mediaURL
              req'.mediaType req'.caption).success <;>
            simp [hs]
    · simp [handleSendRequest, hm]

/-- A request with an empty destination. -/
def reqEmptyPhone : SendMessageRequest := ⟨"", "hi", "", "", ""⟩

theorem rest_send_spec_witness :
    handleSendRequest envConnectedOk "POST" none =
      ⟨400, none, some "Invalid request format", false⟩ ∧
    handleSendRequest envConnectedOk "POST" (some reqEmptyPhone) =
      ⟨400, none, some "Phone and either message or media URL are required", false⟩ :=
  ⟨(rest_send_spec envConnectedOk reqEmptyPhone).1,
   (rest_send_spec envConnectedOk reqEmptyPhone).2.1 (Or.inl rfl)⟩

lemma storeMessage_rows_of_key (db : DB) (id chatJID sender content : String) (t : Int)
    (f : Bool) (u th mt : String) (h : ¬(content = "" ∧ u = "")) :
    (StoreMessage db id chatJID sender content t f u th mt).messages.filter
        (fun m => m.id = id ∧ m.chatJID = chatJID) =
      [⟨id, chatJID, sender, content, t, f, u, th, mt⟩] := by
  simp only [StoreMessage, if_neg h, List.filter_append, List.filter_filter]
  rw [List.filter_eq_nil_iff.mpr (fun a _ => by simp)]
  simp

lemma storeMessage_idem (db : DB) (id chatJID sender content : String) (t : Int)
    (f : Bool) (u th mt : String) :
    StoreMessage (StoreMessage db id chatJID sender content t f u th mt)
        id chatJID sender content t f u th mt =
      StoreMessage db id chatJID sender content t f u th mt := by
  by_cases h : content = "" ∧ u = ""
  · simp [StoreMessage, h]
  · simp only [StoreMessage, if_neg h]
    simp [List.filter_append, List.filter_filter]

/-- C4 fails on the code: StoreChat is a blind INSERT OR REPLACE; re-storing
chat1 with timestamp 5 after it was stored with timestamp 10 leaves 5, not
max 10 5 = 10, so backlog replay can regress a chat's recorded recency. -/
theorem storeChat_blind_overwrite :
    (StoreChat (StoreChat emptyDB "chat1@g.us" "Chat One" 10) "chat1@g.us" "Chat One" 5).chats =
      [⟨"chat1@g.us", "Chat One", 5⟩] ∧
    ¬(5 : Int) = max 10 5 := by
  refine ⟨rfl, by decide⟩

/-- Every message row carries non-empty text or a non-empty media reference. -/
def messagesNonEmpty (db : DB) : Prop :=
  ∀ m ∈ db.messages, m.content ≠ "" ∨ m.imageURL ≠ ""

/-- Archive states reachable from the fresh store through the two write
operations of MessageStore; every write path of the bridge (handleMessage and
handleHistorySync) goes through StoreChat and StoreMessage. -/
inductive Reachable : DB → Prop
  | init : Reachable emptyDB
  | chat (db : DB) (jid name : String) (t : Int) :
      Reachable db → Reachable (StoreChat db jid name t)
  | msg (db : DB) (id chatJID sender content : String) (t : Int) (f : Bool)
      (u th mt : String) :
      Reachable db → Reachable (StoreMessage db id chatJID sender content t f u th mt)

/-- C5: in every reachable archive state, every persisted message row carries
non-empty text or a non-empty media reference, and a StoreMessage call whose
text and media reference are both empty persists nothing. -/
theorem reachable_rows_nonempty (db db2 : DB) (id chatJID sender : String) (t : Int)
    (f : Bool) (th mt : String) (h : Reachable db) :
    messagesNonEmpty db ∧ StoreMessage db2 id chatJID sender "" t f "" th mt = db2 := by
  refine ⟨?_, by simp [StoreMessage]⟩
  induction h with
  | init => intro m hm; cases hm
  | chat db' jid name t' hr ih => exact ih
  | msg db' id' c' s' ct' t' f' u' th' mt' hr ih =>
    intro m hm
    unfold StoreMessage at hm
    split at hm
    · exact ih m hm
    · rename_i hcond
      simp only [List.mem_append, List.mem_filter, List.mem_singleton] at hm
      rcases hm with ⟨hmem, _⟩ | rfl
      · exact ih m hmem
      · exact not_and_or.mp hcond

theorem reachable_rows_nonempty_witness :
    messagesNonEmpty (StoreMessage emptyDB "m1" "c1" "alice" "hi" 1 false "" "" "") ∧
    StoreMessage emptyDB "x" "y" "z" "" 2 true "" "thumb" "image" = emptyDB :=
  reachable_rows_nonempty _ emptyDB "x" "y" "z" 2 true "thumb" "image"
    (Reachable.msg emptyDB "m1" "c1" "alice" "hi" 1 false "" "" "" Reachable.init)

/-- A handleMessage environment with no contact name and a trivially
successful media environment. -/
def envNoContact : MsgEnv := ⟨none, ⟨1000, .ok [], none, none, 0⟩⟩

/-- C6 fails as stated: a live text message from a group chat outside
input_groups is dropped by handleMessage before any write — nothing is
archived, not merely excluded from matching — even though its text content is
non-empty. -/
theorem unmonitored_group_not_archived :
    handleMessage ⟨["kg@g.us"], []⟩ envNoContact emptyDB
        ⟨"m1", "other@g.us", "other", "alice@s.whatsapp.net", false, true, 500,
          some ⟨"hello", none, none⟩⟩ = emptyDB ∧
    extractTextContent (some ⟨"hello", none, none⟩) = "hello" :=
  ⟨rfl, rfl⟩

/-- C6 (amended): a live message from a group chat that is not in the
monitored-group set is skipped entirely by handleMessage: neither a chat row
nor a message row is written, so archiving as well as identity matching is
withheld for such chats. -/
theorem unmonitored_group_skipped (cfg : Config) (env : MsgEnv) (db : DB)
    (m : IncomingMsg) (hg : m.isGroup = true)
    (hns : isKindergartenGroup cfg m.chatJID = false) :
    handleMessage cfg env db m = db := by
  simp [handleMessage, hg, hns]

theorem unmonitored_group_skipped_witness :
    handleMessage ⟨["kg@g.us"], []⟩ envNoContact emptyDB
        ⟨"m2", "other@g.us", "other", "bob@s.whatsapp.net", false, true, 600,
          some ⟨"photo day", none, none⟩⟩ = emptyDB :=
  unmonitored_group_skipped ⟨["kg@g.us"], []⟩ envNoContact emptyDB
    ⟨"m2", "other@g.us", "other", "bob@s.whatsapp.net", false, true, 600,
      some ⟨"photo day", none, none⟩⟩ rfl rfl

/-- A media environment ten minutes into the run with a successful download. -/
def envAcqOk : AcquireEnv := ⟨1000, .ok [7], none, none, 777⟩

/-- An image-only message with an empty caption and a thumbnail. -/
def imgOnlyMsg : WaMessage := ⟨"", none, some ⟨"", "thumbdata"⟩⟩

/-- C2 fails on the code: handleHistorySync passes the literal false for the
isHistorical flag (main.go:824), so a backlog image whose timestamp is more
than five minutes before acquisition time is recency-filtered and returns
noMedia without invoking the download, exactly like a live message, whereas
the same call with isHistorical true would download and stage it; the live
half of the claim holds. -/
theorem backlog_recency_filtered :
    historySyncMediaCall envAcqOk (some imgOnlyMsg) "chat@g.us" 100 =
      ⟨.ok ("", "", ""), false⟩ ∧
    extractMediaContent envAcqOk (some imgOnlyMsg) "chat@g.us" false 100 =
      ⟨.ok ("", "", ""), false⟩ ∧
    extractMediaContent envAcqOk (some imgOnlyMsg) "chat@g.us" true 100 =
      ⟨.ok ("store/media/img_777.jpg", "thumbdata", "image"), true⟩ :=
  ⟨rfl, rfl, rfl⟩

/-- A small populated archive: two chats, three messages. -/
def dbSample : DB :=
  ⟨[⟨"a@g.us", "A", 5⟩, ⟨"b@g.us", "B", 9⟩],
   [⟨"m1", "a@g.us", "s", "x", 3, false, "", "", ""⟩,
    ⟨"m2", "a@g.us", "s", "y", 7, false, "", "", ""⟩,
    ⟨"m3", "b@g.us", "s", "z", 1, false, "", "", ""⟩]⟩

end JustMyKids
